import Mathlib

/-!
Shallow embedding of the MCP tool server (tool registrations, handlers and
capability declarations from `src/app/[transport]/route.ts` and the snapshot
files `src/unnamed/part_000` … `part_004`), together with theorems checking
the natural-language specification against it.

Modelling conventions:
* JavaScript numbers are embedded as `ℚ` (exact rational arithmetic);
  `Math.round` becomes `⌊x + 1/2⌋`.
* JavaScript strings are Lean `String`s; per-index character work uses the
  underlying `List Char`.
* Handler return objects become a `ToolResult`: the `content` array plus the
  flattened structured fields (an association list of `Json` values); a field
  such as `success: false` is present exactly when the source object writes it.
* The network-backed population lookup is embedded as a function of the
  abstract fetch outcome (the external collaborator's reply).
-/

namespace MCP

/-- JSON values as decoded from the wire. -/
inductive Json where
  | str (s : String)
  | num (q : ℚ)
  | bool (b : Bool)
  | null
  | arr (xs : List Json)
  | obj (fields : List (String × Json))

/-- A content block; the server only ever emits `type: "text"` blocks, so the
block is its text. -/
structure ContentBlock where
  text : String
deriving DecidableEq

/-- A handler's raw return object: the `content` array plus the flattened
structured fields, exactly the fields the source object literal writes. -/
structure ToolResult where
  content : List ContentBlock
  fields : List (String × Json)

/-- Whether the result object carries a top-level `success` field. -/
def ToolResult.successField (r : ToolResult) : Option Json :=
  (r.fields.find? (fun p => p.1 == "success")).map (·.2)

/-- The boolean the result's `success` field holds, when it is a boolean. -/
def ToolResult.successBool (r : ToolResult) : Option Bool :=
  match r.successField with
  | some (.bool b) => some b
  | _ => none

/-! ### The echo tool (`route.ts` lines 7–16, identical in every snapshot) -/

/-- `async ({ message }) => ({ content: [{ type: "text", text: SOME }] })`
with SOME the template string: the echo handler returns a content-only
object, no structured fields. -/
def echoHandler (message : String) : ToolResult :=
  { content := [⟨"Tool echo: " ++ message⟩], fields := [] }

/-! ### Registered tools versus declared capabilities

Each file registers tools through `server.tool(name, description, …)` and
separately declares `capabilities.tools` as a literal object.  We record both
as `(name, description)` lists, in source order. -/

/-- Tools registered in `src/app/[transport]/route.ts` (the `server.tool`
calls), with their registration descriptions. -/
def routeRegisteredTools : List (String × String) :=
  [("echo", "Echo a message"),
   ("calculate_sha1", "Calculate the SHA1 hash of a given string input"),
   ("get_population_data",
    "Get current population data for a country from REST Countries API")]

/-- The `capabilities.tools` object literal of `src/app/[transport]/route.ts`
(lines 134–151). -/
def routeCapabilityTools : List (String × String) :=
  [("echo", "Echo a message"),
   ("count_character", "Count occurrences of a character in a string"),
   ("calculate_sha1",
    "Calculate the SHA1 hash of a given string input. Useful for creating checksums, verifying data integrity, or generating unique identifiers. Takes any string input and returns the SHA1 hash in hexadecimal format."),
   ("get_population_data",
    "Get current population data for any country from REST Countries API. Takes a country name (full name, common name, or ISO code) and returns comprehensive population and country information including population count, official name, capital, region, and subregion. Useful for demographic research, country comparisons, and accessing up-to-date population statistics.")]

/-- Tools registered in `src/unnamed/part_004` (the `server.tool` calls). -/
def part004RegisteredTools : List (String × String) :=
  [("echo", "Echo a message"),
   ("calculate_sha1", "Calculate the SHA1 hash of a given string input"),
   ("calculate_sha256", "Calculate the SHA256 hash of a given string input"),
   ("get_population_data",
    "Get current population data for a country from REST Countries API"),
   ("calculate_mortgage_payment",
    "Calculate monthly mortgage payment using the standard mortgage payment formula"),
   ("count_letter_occurrences",
    "Count the exact number of occurrences of a specific letter in a given string with case-insensitive matching, returning both the count and positions for verification")]

/-- The `capabilities.tools` object literal of `src/unnamed/part_004`
(lines 306–329). -/
def part004CapabilityTools : List (String × String) :=
  [("echo", "Echo a message"),
   ("count_letter_occurrences",
    "Count the exact number of occurrences of a specific letter in a given string with case-insensitive matching, returning both the count and positions for verification. Useful for text analysis, pattern detection, and character frequency analysis."),
   ("calculate_sha1",
    "Calculate the SHA1 hash of a given string input. Useful for creating checksums, verifying data integrity, or generating unique identifiers. Takes any string input and returns the SHA1 hash in hexadecimal format."),
   ("calculate_sha256",
    "Calculate the SHA256 hash of a given string input. More secure than SHA1, useful for creating checksums, verifying data integrity, password hashing, or generating unique identifiers. Takes any string input including special characters, numbers, and Unicode characters, and returns the SHA256 hash in hexadecimal format."),
   ("get_population_data",
    "Get current population data for any country from REST Countries API. Takes a country name (full name, common name, or ISO code) and returns comprehensive population and country information including population count, official name, capital, region, and subregion. Useful for demographic research, country comparisons, and accessing up-to-date population statistics."),
   ("calculate_mortgage_payment",
    "Calculate monthly mortgage payment using the standard mortgage payment formula. Takes loan amount, annual interest rate (as percentage), and loan term in years. Returns monthly payment amount, total amount paid, and total interest paid. Uses the formula M = P * [r(1 + r)^n] / [(1 + r)^n - 1]. Useful for mortgage planning, loan comparisons, and financial planning.")]

/-! ### The mortgage tool (`src/unnamed/part_004` lines 160–243) -/

/-- `Math.round`: round half toward positive infinity. -/
def jsRound (q : ℚ) : ℤ := ⌊q + 1/2⌋

/-- `Math.round(x * 100) / 100`: round to 2 decimal places. -/
def round2 (q : ℚ) : ℚ := (jsRound (q * 100) : ℚ) / 100

/-- `Math.round(x * 10000) / 10000`: round to 4 decimal places. -/
def round4 (q : ℚ) : ℚ := (jsRound (q * 10000) : ℚ) / 10000

/-- The monthly payment computed by the handler body: monthly rate
`annualInterestRate / 100 / 12`, `n = loanTermYears * 12` payments, with the
explicit zero-rate branch, else the amortization formula. -/
def mortgageMonthlyPayment (loanAmount annualInterestRate : ℚ)
    (loanTermYears : ℕ) : ℚ :=
  let monthlyInterestRate := annualInterestRate / 100 / 12
  let numberOfPayments := loanTermYears * 12
  if monthlyInterestRate = 0 then
    loanAmount / (numberOfPayments : ℚ)
  else
    let numerator :=
      loanAmount * monthlyInterestRate *
        (1 + monthlyInterestRate) ^ numberOfPayments
    let denominator := (1 + monthlyInterestRate) ^ numberOfPayments - 1
    numerator / denominator

/-- The `calculation` structured payload of the mortgage tool's success
return: raw inputs echoed, totals rounded to 2 decimals, the rate rounded to
4 decimals, and the payment count. -/
structure MortgageCalculation where
  loanAmount : ℚ
  annualInterestRate : ℚ
  loanTermYears : ℕ
  monthlyPayment : ℚ
  totalAmountPaid : ℚ
  totalInterest : ℚ
  monthlyInterestRate : ℚ
  numberOfPayments : ℕ

/-- The mortgage handler's successful computation (`part_004` lines 169–222):
payment by `mortgageMonthlyPayment`, `totalAmountPaid = payment * n`,
`totalInterest = totalAmountPaid - loanAmount`, rounded as in the source. -/
def calculateMortgage (loanAmount annualInterestRate : ℚ)
    (loanTermYears : ℕ) : MortgageCalculation :=
  let monthlyInterestRate := annualInterestRate / 100 / 12
  let numberOfPayments := loanTermYears * 12
  let monthlyPayment := mortgageMonthlyPayment loanAmount annualInterestRate loanTermYears
  let totalAmountPaid := monthlyPayment * (numberOfPayments : ℚ)
  let totalInterest := totalAmountPaid - loanAmount
  { loanAmount := loanAmount
    annualInterestRate := annualInterestRate
    loanTermYears := loanTermYears
    monthlyPayment := round2 monthlyPayment
    totalAmountPaid := round2 totalAmountPaid
    totalInterest := round2 totalInterest
    monthlyInterestRate := round4 monthlyInterestRate
    numberOfPayments := numberOfPayments }

/-! ### The letter-count tool (`src/unnamed/part_004` lines 245–302)

The text is handled per character (`lowerText[i]`, `text.split('')`), so the
embedding works on the string's character list.  `toLowerCase` and
`toUpperCase` are the external ECMAScript full Unicode case mappings, which
may map one code point to several (so `text.toLowerCase()` can be longer
than `text`, and a matched character's uppercase can be more than one
character): each is modelled per code point as `Char → List Char`, carrying
the length-changing SpecialCasing entries exercised below — İ (U+0130)
lowercases to i followed by combining dot above (U+0307), ß (U+00DF)
uppercases to SS — and the simple one-to-one mapping elsewhere
(`Char.toLower` / `Char.toUpper`, exact on ASCII). -/

/-- Model of the external ECMAScript per-code-point full lowercase mapping
(`toLowerCase`). -/
def jsLowerChar (c : Char) : List Char :=
  if c = 'İ' then ['i', Char.ofNat 775] else [c.toLower]

/-- Model of the external ECMAScript per-code-point full uppercase mapping
(`toUpperCase`). -/
def jsUpperChar (c : Char) : List Char :=
  if c = 'ß' then ['S', 'S'] else [c.toUpper]

/-- `text.toLowerCase()`: the concatenation of the characters' full
lowercase mappings. -/
def jsToLower (s : List Char) : List Char := s.flatMap jsLowerChar

/-- The loop `for i …: if lowerText[i] === lowerLetter then positions.push(i)`:
the indices of `lowerText = text.toLowerCase()` whose one-character string
equals `lowerLetter = letter.toLowerCase()`, in increasing order.  (When the
letter's lowercase has more than one character, no single character of
`lowerText` can equal it.) -/
def letterPositions (text : List Char) (letter : Char) : List ℕ :=
  (((jsToLower text).enum.filter
      (fun p => [p.2] == jsLowerChar letter)).map Prod.fst)

/-- `text.split('').map((char, index) => positions.includes(index) ?
char.toUpperCase() : char).join('')`: uppercasing a matched character may
contribute more than one character to the joined result. -/
def visualRepresentation (text : List Char) (letter : Char) : List Char :=
  text.enum.flatMap (fun p =>
    if (letterPositions text letter).contains p.1 then jsUpperChar p.2
    else [p.2])

/-- The `analysis` structured payload of the letter-count tool's success
return (`part_004` lines 279–287).  In the loop `count` is incremented
exactly when a position is pushed, so it is the length of `positions`. -/
structure LetterAnalysis where
  originalText : List Char
  targetLetter : Char
  totalCount : ℕ
  positions : List ℕ
  textLength : ℕ
  visualRepresentation : List Char
deriving DecidableEq

/-- The letter-count handler body on its success path. -/
def countLetterOccurrences (text : List Char) (letter : Char) : LetterAnalysis :=
  { originalText := text
    targetLetter := letter
    totalCount := (letterPositions text letter).length
    positions := letterPositions text letter
    textLength := text.length
    visualRepresentation := visualRepresentation text letter }

/-! ### Handler text blocks and catch branches

Each handler returns one text block built from a template literal; the
`catch` branches of the three fallible tools each return `success: false`,
an `error` field and a fixed descriptive template around the error message.
`Intl.NumberFormat` and `Number.toLocaleString` are external formatting
collaborators; they are modelled as plain decimal rendering, which the
claims do not depend on. -/

/-- Model of the external `Intl.NumberFormat('en-US', {currency: 'USD'})`. -/
def formatCurrency (q : ℚ) : String := "$" ++ toString q

/-- Whether a result carries at least one non-empty text content block. -/
def hasNonemptyText (r : ToolResult) : Bool :=
  r.content.any (fun cb => cb.text.length != 0)

/-- Catch branch of `calculate_mortgage_payment` (`part_004` lines 226–238). -/
def mortgageCatchResult (errorMessage : String) : ToolResult :=
  { content :=
      [⟨"Error calculating mortgage payment: " ++ errorMessage
          ++ ". Please check your input values and try again."⟩],
    fields := [("success", .bool false), ("error", .str errorMessage)] }

/-- Catch branch of `count_letter_occurrences` (`part_004` lines 290–302). -/
def countLetterCatchResult (errorMessage : String) : ToolResult :=
  { content :=
      [⟨"Error counting letter occurrences: " ++ errorMessage
          ++ ". Please check your input values and try again."⟩],
    fields := [("success", .bool false), ("error", .str errorMessage)] }

/-- Catch branch of `get_population_data` (`part_004` lines 145–157). -/
def populationCatchResult (country errorMessage : String) : ToolResult :=
  { content :=
      [⟨"Error fetching population data for \"" ++ country ++ "\": "
          ++ errorMessage ++ ". Please try again or verify the country name."⟩],
    fields := [("success", .bool false), ("error", .str errorMessage)] }

/-- The country record the external REST Countries collaborator may return,
already narrowed the way the handler reads it (`population`,
`name.common` / `name.official` after the `||` fallbacks, first capital,
region, subregion). -/
structure CountryInfo where
  population : ℤ
  commonName : String
  officialName : String
  capital : String
  region : String
  subregion : String

/-- Outcome of the `fetch` to the external data provider, as the handler
distinguishes the cases: ok with usable data, ok with an empty array,
non-ok 404, other non-ok status (thrown, then caught), or a thrown
network/parse error. -/
inductive FetchOutcome where
  | success (c : CountryInfo)
  | emptyData
  | notFound
  | httpError (status : ℕ) (statusText : String)
  | fetchFailure (message : String)

/-- Success-path text of `get_population_data` (the template literal of
`part_004` line 131), with `toLocaleString` modelled as decimal rendering. -/
def populationSuccessText (c : CountryInfo) : String :=
  "Population data for " ++ c.commonName ++ ":\n\nPopulation: "
    ++ toString c.population ++ "\nOfficial name: " ++ c.officialName
    ++ "\nCapital: " ++ c.capital ++ "\nRegion: " ++ c.region
    ++ "\nSubregion: " ++ c.subregion
    ++ "\n\nData source: REST Countries API\nNote: Population figures are estimates and may not reflect the most recent census data."

/-- The `get_population_data` handler (`part_004` lines 68–158) as a function
of the fetch outcome: every return branch of the source, with the non-404
HTTP failure routed through the catch block exactly as the thrown
`Error(HTTP status: statusText)` is. -/
def populationHandler (country : String) : FetchOutcome → ToolResult
  | .notFound =>
    { content :=
        [⟨"Country \"" ++ country
            ++ "\" not found. Please check the spelling or try alternative names (e.g., 'USA' instead of 'United States', 'UK' instead of 'United Kingdom')."⟩],
      fields := [("success", .bool false), ("error", .str "Country not found")] }
  | .emptyData =>
    { content :=
        [⟨"No data found for country \"" ++ country
            ++ "\". Please verify the country name and try again."⟩],
      fields := [("success", .bool false), ("error", .str "No data found")] }
  | .success c =>
    { content := [⟨populationSuccessText c⟩],
      fields :=
        [("success", .bool true),
         ("country", .obj
            [("name", .obj [("common", .str c.commonName),
                            ("official", .str c.officialName)]),
             ("population", .num (c.population : ℚ)),
             ("capital", .str c.capital), ("region", .str c.region),
             ("subregion", .str c.subregion)]),
         ("data_source", .str "REST Countries API")] }
  | .httpError status statusText =>
    populationCatchResult country
      ("HTTP " ++ toString status ++ ": " ++ statusText)
  | .fetchFailure message => populationCatchResult country message

/-- Success-path text of `calculate_mortgage_payment` (`part_004`
line 209). -/
def mortgageSuccessText (loanAmount annualInterestRate : ℚ)
    (loanTermYears : ℕ) : String :=
  let m := mortgageMonthlyPayment loanAmount annualInterestRate loanTermYears
  let total := m * ((loanTermYears * 12 : ℕ) : ℚ)
  "Mortgage Payment Calculation:\n\nLoan Amount: " ++ formatCurrency loanAmount
    ++ "\nAnnual Interest Rate: " ++ toString annualInterestRate
    ++ "%\nLoan Term: " ++ toString loanTermYears
    ++ " years\n\nMonthly Payment: " ++ formatCurrency m
    ++ "\nTotal Amount Paid: " ++ formatCurrency total
    ++ "\nTotal Interest Paid: " ++ formatCurrency (total - loanAmount)
    ++ "\n\nThis calculation uses the standard mortgage payment formula and assumes a fixed interest rate throughout the loan term."

/-- `Json` rendering of the `calculation` payload fields
(`part_004` lines 213–222). -/
def mortgageCalculationJson (c : MortgageCalculation) : Json :=
  .obj [("loanAmount", .num c.loanAmount),
        ("annualInterestRate", .num c.annualInterestRate),
        ("loanTermYears", .num (c.loanTermYears : ℚ)),
        ("monthlyPayment", .num c.monthlyPayment),
        ("totalAmountPaid", .num c.totalAmountPaid),
        ("totalInterest", .num c.totalInterest),
        ("monthlyInterestRate", .num c.monthlyInterestRate),
        ("numberOfPayments", .num (c.numberOfPayments : ℚ))]

/-- Success branch of the `calculate_mortgage_payment` handler
(`part_004` lines 205–224). -/
def mortgageSuccessResult (loanAmount annualInterestRate : ℚ)
    (loanTermYears : ℕ) : ToolResult :=
  { content := [⟨mortgageSuccessText loanAmount annualInterestRate loanTermYears⟩],
    fields :=
      [("success", .bool true),
       ("calculation", mortgageCalculationJson
          (calculateMortgage loanAmount annualInterestRate loanTermYears)),
       ("formula", .str "M = P * [r(1 + r)^n] / [(1 + r)^n - 1]")] }

/-- Success-path text of `count_letter_occurrences` (`part_004` line 274). -/
def countLetterSuccessText (text : List Char) (letter : Char) : String :=
  let positions := letterPositions text letter
  "Letter Count Results:\n\nText: \"" ++ String.mk text
    ++ "\"\nLetter to count: \"" ++ String.mk [letter]
    ++ "\" (case-insensitive)\n\nTotal occurrences: " ++ toString positions.length
    ++ "\nPositions: "
    ++ (if positions.length > 0 then
          String.intercalate ", " (positions.map toString)
        else "none")
    ++ "\n\nVisualization (matches in uppercase):\n\""
    ++ String.mk (visualRepresentation text letter)
    ++ "\"\n\nNote: Position counting starts from 0. Case-insensitive matching finds both uppercase and lowercase versions of the letter."

/-- Success branch of the `count_letter_occurrences` handler
(`part_004` lines 270–289). -/
def countLetterSuccessResult (text : List Char) (letter : Char) : ToolResult :=
  let a := countLetterOccurrences text letter
  { content := [⟨countLetterSuccessText text letter⟩],
    fields :=
      [("success", .bool true),
       ("analysis", .obj
          [("originalText", .str (String.mk a.originalText)),
           ("targetLetter", .str (String.mk [a.targetLetter])),
           ("caseSensitive", .bool false),
           ("totalCount", .num (a.totalCount : ℚ)),
           ("positions", .arr (a.positions.map (fun i => .num (i : ℚ)))),
           ("textLength", .num (a.textLength : ℚ)),
           ("visualRepresentation", .str (String.mk a.visualRepresentation))])] }

/-! ### SHA-1 and SHA-256 (`crypto.createHash`)

The hash tools call Node's `createHash(…).update(input).digest('hex')` with
UTF-8 input encoding; the algorithms are embedded bit-faithfully over byte
lists, 32-bit words as `ℕ` reduced `% 2 ^ 32`. -/

/-- Standard UTF-8 encoding of one code point. -/
def utf8EncodeChar (c : Char) : List ℕ :=
  let n := c.toNat
  if n < 0x80 then [n]
  else if n < 0x800 then [0xc0 + n / 64, 0x80 + n % 64]
  else if n < 0x10000 then
    [0xe0 + n / 4096, 0x80 + n / 64 % 64, 0x80 + n % 64]
  else
    [0xf0 + n / 262144, 0x80 + n / 4096 % 64, 0x80 + n / 64 % 64, 0x80 + n % 64]

/-- The UTF-8 bytes of a string (`hash.update(input, 'utf8')`). -/
def utf8Bytes (s : String) : List ℕ := s.data.flatMap utf8EncodeChar

/-- The 32-bit modulus. -/
def w32 : ℕ := 2 ^ 32

/-- Rotate a 32-bit word right by `k` (for words `< 2 ^ 32`). -/
def rotr32 (k n : ℕ) : ℕ := n / 2 ^ k + n % 2 ^ k * 2 ^ (32 - k)

/-- Rotate a 32-bit word left by `k` (for words `< 2 ^ 32`). -/
def rotl32 (k n : ℕ) : ℕ := n % 2 ^ (32 - k) * 2 ^ k + n / 2 ^ (32 - k)

/-- Three-way xor. -/
def xor3 (a b c : ℕ) : ℕ := (a ^^^ b) ^^^ c

/-- Bitwise complement within 32 bits (for words `< 2 ^ 32`). -/
def not32 (n : ℕ) : ℕ := w32 - 1 - n

/-- `k` bytes of `n`, big-endian. -/
def beBytes (k n : ℕ) : List ℕ :=
  (List.range k).map (fun i => n / 256 ^ (k - 1 - i) % 256)

/-- Merkle–Damgård padding shared by SHA-1 and SHA-256: a `0x80` byte, zeros
to 56 mod 64, then the bit length as 8 big-endian bytes. -/
def shaPad (msg : List ℕ) : List ℕ :=
  let L := msg.length
  let zeros := (120 - (L + 1) % 64) % 64
  msg ++ 0x80 :: List.replicate zeros 0 ++ beBytes 8 (8 * L)

/-- Big-endian 32-bit words of a byte list. -/
def beWords (bytes : List ℕ) : List ℕ :=
  (List.range (bytes.length / 4)).map (fun i =>
    bytes.getD (4 * i) 0 * 2 ^ 24 + bytes.getD (4 * i + 1) 0 * 2 ^ 16 +
      bytes.getD (4 * i + 2) 0 * 2 ^ 8 + bytes.getD (4 * i + 3) 0)

/-- Split a word list into 16-word blocks. -/
def blocks16 (ws : List ℕ) : List (List ℕ) :=
  (List.range (ws.length / 16)).map (fun i => (ws.drop (16 * i)).take 16)

/-- Lowercase hex digit. -/
def hexDigit (n : ℕ) : Char :=
  if n < 10 then Char.ofNat (48 + n) else Char.ofNat (87 + n)

/-- Lowercase hex rendering of a byte list (`digest('hex')`). -/
def bytesToHex (bs : List ℕ) : String :=
  String.mk (bs.flatMap (fun b => [hexDigit (b / 16), hexDigit (b % 16)]))

/-- SHA-256 round constants. -/
def sha256K : List ℕ :=
  [1116352408, 1899447441, 3049323471, 3921009573,
   961987163, 1508970993, 2453635748, 2870763221,
   3624381080, 310598401, 607225278, 1426881987,
   1925078388, 2162078206, 2614888103, 3248222580,
   3835390401, 4022224774, 264347078, 604807628,
   770255983, 1249150122, 1555081692, 1996064986,
   2554220882, 2821834349, 2952996808, 3210313671,
   3336571891, 3584528711, 113926993, 338241895,
   666307205, 773529912, 1294757372, 1396182291,
   1695183700, 1986661051, 2177026350, 2456956037,
   2730485921, 2820302411, 3259730800, 3345764771,
   3516065817, 3600352804, 4094571909, 275423344,
   430227734, 506948616, 659060556, 883997877,
   958139571, 1322822218, 1537002063, 1747873779,
   1955562222, 2024104815, 2227730452, 2361852424,
   2428436474, 2756734187, 3204031479, 3329325298]

/-- Small sigma 0. -/
def ssig0 (x : ℕ) : ℕ := xor3 (rotr32 7 x) (rotr32 18 x) (x / 2 ^ 3)

/-- Small sigma 1. -/
def ssig1 (x : ℕ) : ℕ := xor3 (rotr32 17 x) (rotr32 19 x) (x / 2 ^ 10)

/-- Big sigma 0. -/
def bsig0 (x : ℕ) : ℕ := xor3 (rotr32 2 x) (rotr32 13 x) (rotr32 22 x)

/-- Big sigma 1. -/
def bsig1 (x : ℕ) : ℕ := xor3 (rotr32 6 x) (rotr32 11 x) (rotr32 25 x)

/-- SHA-256 message-schedule extension by the given number of words. -/
def sha256Extend (acc : List ℕ) : ℕ → List ℕ
  | 0 => acc
  | s + 1 =>
    let t := acc.length
    let w := (ssig1 (acc.getD (t - 2) 0) + acc.getD (t - 7) 0 +
        ssig0 (acc.getD (t - 15) 0) + acc.getD (t - 16) 0) % w32
    sha256Extend (acc ++ [w]) s

/-- SHA-256 working state. -/
structure Sha256State where
  a : ℕ
  b : ℕ
  c : ℕ
  d : ℕ
  e : ℕ
  f : ℕ
  g : ℕ
  hh : ℕ

/-- One SHA-256 round; `kw` is the `(constant, scheduled word)` pair. -/
def sha256Round (st : Sha256State) (kw : ℕ × ℕ) : Sha256State :=
  let ch := (st.e &&& st.f) ^^^ (not32 st.e &&& st.g)
  let maj := ((st.a &&& st.b) ^^^ (st.a &&& st.c)) ^^^ (st.b &&& st.c)
  let t1 := (st.hh + bsig1 st.e + ch + kw.1 + kw.2) % w32
  let t2 := (bsig0 st.a + maj) % w32
  { a := (t1 + t2) % w32, b := st.a, c := st.b, d := st.c,
    e := (st.d + t1) % w32, f := st.e, g := st.f, hh := st.g }

/-- SHA-256 compression of one 16-word block. -/
def sha256Compress (st : Sha256State) (block : List ℕ) : Sha256State :=
  let ws := sha256Extend block 48
  let r := (sha256K.zip ws).foldl sha256Round st
  { a := (st.a + r.a) % w32, b := (st.b + r.b) % w32,
    c := (st.c + r.c) % w32, d := (st.d + r.d) % w32,
    e := (st.e + r.e) % w32, f := (st.f + r.f) % w32,
    g := (st.g + r.g) % w32, hh := (st.hh + r.hh) % w32 }

/-- SHA-256 initial state. -/
def sha256Init : Sha256State :=
  { a := 1779033703, b := 3144134277, c := 1013904242, d := 2773480762,
    e := 1359893119, f := 2600822924, g := 528734635, hh := 1541459225 }

/-- SHA-256 digest bytes of a message. -/
def sha256Bytes (msg : List ℕ) : List ℕ :=
  let fin := (blocks16 (beWords (shaPad msg))).foldl sha256Compress sha256Init
  [fin.a, fin.b, fin.c, fin.d, fin.e, fin.f, fin.g, fin.hh].flatMap (beBytes 4)

/-- The `calculate_sha256` digest: lowercase hex SHA-256 of the UTF-8
bytes. -/
def sha256Hex (s : String) : String := bytesToHex (sha256Bytes (utf8Bytes s))

/-- SHA-1 working state. -/
structure Sha1State where
  a : ℕ
  b : ℕ
  c : ℕ
  d : ℕ
  e : ℕ

/-- SHA-1 message-schedule extension by the given number of words. -/
def sha1Extend (acc : List ℕ) : ℕ → List ℕ
  | 0 => acc
  | s + 1 =>
    let t := acc.length
    let w := rotl32 1 (xor3 (acc.getD (t - 3) 0 ^^^ acc.getD (t - 8) 0)
        (acc.getD (t - 14) 0) (acc.getD (t - 16) 0))
    sha1Extend (acc ++ [w]) s

/-- SHA-1 round function, by round index. -/
def sha1F (t b c d : ℕ) : ℕ :=
  if t < 20 then (b &&& c) ||| (not32 b &&& d)
  else if t < 40 then xor3 b c d
  else if t < 60 then ((b &&& c) ||| (b &&& d)) ||| (c &&& d)
  else xor3 b c d

/-- SHA-1 round constants, by round index. -/
def sha1K (t : ℕ) : ℕ :=
  if t < 20 then 1518500249
  else if t < 40 then 1859775393
  else if t < 60 then 2400959708
  else 3395469782

/-- One SHA-1 round; `tw` is the `(round index, scheduled word)` pair. -/
def sha1Round (st : Sha1State) (tw : ℕ × ℕ) : Sha1State :=
  let temp := (rotl32 5 st.a + sha1F tw.1 st.b st.c st.d + st.e +
      sha1K tw.1 + tw.2) % w32
  { a := temp, b := st.a, c := rotl32 30 st.b, d := st.c, e := st.d }

/-- SHA-1 compression of one 16-word block. -/
def sha1Compress (st : Sha1State) (block : List ℕ) : Sha1State :=
  let ws := sha1Extend block 64
  let r := ((List.range 80).zip ws).foldl sha1Round st
  { a := (st.a + r.a) % w32, b := (st.b + r.b) % w32,
    c := (st.c + r.c) % w32, d := (st.d + r.d) % w32,
    e := (st.e + r.e) % w32 }

/-- SHA-1 initial state. -/
def sha1Init : Sha1State :=
  { a := 1732584193, b := 4023233417, c := 2562383102, d := 271733878,
    e := 3285377520 }

/-- SHA-1 digest bytes of a message. -/
def sha1Bytes (msg : List ℕ) : List ℕ :=
  let fin := (blocks16 (beWords (shaPad msg))).foldl sha1Compress sha1Init
  [fin.a, fin.b, fin.c, fin.d, fin.e].flatMap (beBytes 4)

/-- The `calculate_sha1` digest: lowercase hex SHA-1 of the UTF-8 bytes. -/
def sha1Hex (s : String) : String := bytesToHex (sha1Bytes (utf8Bytes s))

/-- The `calculate_sha1` handler's return object (`route.ts` lines 24–39). -/
def sha1Result (input : String) : ToolResult :=
  { content := [⟨"SHA1 hash of \"" ++ input ++ "\": " ++ sha1Hex input⟩],
    fields := [("hash", .str (sha1Hex input)), ("input", .str input),
               ("algorithm", .str "sha1")] }

/-- The `calculate_sha256` handler's return object (`part_004`
lines 43–66). -/
def sha256Result (input : String) : ToolResult :=
  { content := [⟨"SHA256 hash of \"" ++ input ++ "\": " ++ sha256Hex input⟩],
    fields := [("hash", .str (sha256Hex input)), ("input", .str input),
               ("algorithm", .str "sha256"), ("encoding", .str "utf8")] }

/-! ### Schema Validator and Dispatch Engine

The validation and dispatch machinery itself lives in the `zod` and
`@vercel/mcp-adapter` dependencies, not in this repository's sources; only
the per-tool schema declarations are in `src/`.  The machinery is therefore
modelled from the spec (sections 4.1 and 4.3). -/

/-- Kinds a schema field may require (spec section 3, `FieldSpec.kind`). -/
inductive FieldKind where
  | string
  | number
  | integer
  | boolean
deriving DecidableEq

/-- Optional constraints of a `FieldSpec` (spec section 3). -/
structure FieldConstraints where
  minLength : Option ℕ := none
  exactLength : Option ℕ := none
  minimum : Option ℚ := none
  positive : Bool := false

/-- Modelled from the spec: `FieldSpec = \x7b kind, required, constraints \x7d`. -/
structure FieldSpec where
  kind : FieldKind
  required : Bool := true
  constraints : FieldConstraints := {}

/-- An argument schema: ordered mapping from argument name to `FieldSpec`. -/
abbrev ArgumentSchema := List (String × FieldSpec)

/-- A schema violation (spec sections 4.1 and redirect 7). -/
inductive Violation where
  | missingArgument (field : String)
  | invalidArgumentType (field : String) (expected : FieldKind) (actual : Json)
  | constraintViolation (field : String) (constraint : String)

/-- Runtime kind check: JSON numbers are numeric, integers additionally have
zero fractional part, strings and booleans match their kinds. -/
def Json.matchesKind : Json → FieldKind → Bool
  | .str _, .string => true
  | .num _, .number => true
  | .num q, .integer => q.den == 1
  | .bool _, .boolean => true
  | _, _ => false

/-- Modelled from the spec: constraint checks of section 4.1 (strings must
satisfy `minLength` / `exactLength` if set, numbers `minimum` / `positive`
if set). -/
def checkConstraints (field : String) (c : FieldConstraints) :
    Json → List Violation
  | .str s =>
    (match c.minLength with
     | some k => if s.length < k then [.constraintViolation field "minLength"] else []
     | none => []) ++
    (match c.exactLength with
     | some k => if s.length ≠ k then [.constraintViolation field "exactLength"] else []
     | none => [])
  | .num q =>
    (match c.minimum with
     | some m => if q < m then [.constraintViolation field "minimum"] else []
     | none => []) ++
    (if c.positive ∧ ¬ (0 < q) then [.constraintViolation field "positive"] else [])
  | _ => []

/-- Modelled from the spec: validation of a single schema field against the
supplied arguments — absence of a required field is `MissingArgument`, a
kind mismatch is `InvalidArgumentType`, then constraints are checked. -/
def validateField (args : List (String × Json)) (entry : String × FieldSpec) :
    List Violation :=
  match args.find? (fun p => p.1 == entry.1) with
  | none => if entry.2.required then [.missingArgument entry.1] else []
  | some (_, v) =>
    if v.matchesKind entry.2.kind then checkConstraints entry.1 entry.2.constraints v
    else [.invalidArgumentType entry.1 entry.2.kind v]

/-- Modelled from the spec: `validate(schema, arguments)` collects all
violations across the schema's fields (no short-circuit); arguments not
declared in the schema are ignored. -/
def validate (schema : ArgumentSchema) (args : List (String × Json)) :
    List Violation :=
  schema.flatMap (validateField args)

/-- Modelled from the spec: the Dispatch Engine's answer to a `tools/call` —
either a successful envelope carrying a result, or one of the two
protocol-level error kinds raised before any handler runs. -/
inductive CallResponse where
  | result (r : ToolResult)
  | invalidArguments (violations : List Violation)
  | unknownTool (name : String)

/-- Whether a response is a successful JSON-RPC envelope (a `result`, not a
protocol-level `error` object). -/
def CallResponse.isResult : CallResponse → Bool
  | .result _ => true
  | _ => false

/-- Modelled from the spec: the Dispatch Engine's conversion of a handler
failure into a `ToolResult` with `success=false` and a descriptive text
block (spec section 4.3 step 4). -/
def handlerFailureResult (message : String) : ToolResult :=
  { content := [⟨"Tool execution failed: " ++ message⟩],
    fields := [("success", .bool false), ("error", .str message)] }

/-- Modelled from the spec: `tools/call` dispatch for a resolved tool —
validate, and only on an empty violation list invoke the handler
(a fallible computation, `Except` modelling a JavaScript throw); a thrown
error is caught and becomes `handlerFailureResult`, never a protocol
error. -/
def dispatchToolCall (schema : ArgumentSchema)
    (handler : List (String × Json) → Except String ToolResult)
    (args : List (String × Json)) : CallResponse :=
  match validate schema args with
  | [] =>
    match handler args with
    | .ok r => .result r
    | .error e => .result (handlerFailureResult e)
  | v :: vs => .invalidArguments (v :: vs)

/-! ### The zod schemas declared in `src/` -/

/-- Schema of `echo`: `message: z.string()`. -/
def echoSchema : ArgumentSchema := [("message", { kind := .string })]

/-- Schema of `calculate_sha1` / `calculate_sha256`: `input: z.string()`. -/
def shaSchema : ArgumentSchema := [("input", { kind := .string })]

/-- Schema of `get_population_data`: `country: z.string()`. -/
def populationSchema : ArgumentSchema := [("country", { kind := .string })]

/-- Schema of `calculate_mortgage_payment` (`part_004` lines 164–168):
`loanAmount: z.number().positive()`, `annualInterestRate: z.number().min(0)`,
`loanTermYears: z.number().int().positive()`. -/
def mortgageSchema : ArgumentSchema :=
  [("loanAmount", { kind := .number, constraints := { positive := true } }),
   ("annualInterestRate", { kind := .number, constraints := { minimum := some 0 } }),
   ("loanTermYears", { kind := .integer, constraints := { positive := true } })]

/-- Schema of `count_letter_occurrences` (`part_004` lines 245–248):
`text: z.string()`, `letter: z.string().length(1)`. -/
def countLetterSchema : ArgumentSchema :=
  [("text", { kind := .string }),
   ("letter", { kind := .string, constraints := { exactLength := some 1 } })]

/-! ## Shared helper lemmas -/

/-- A single-text-block result with non-empty text has a non-empty text
block. -/
lemma hasNonemptyText_single (s : String) (F : List (String × Json))
    (hs : s.length ≠ 0) :
    hasNonemptyText { content := [⟨s⟩], fields := F } = true := by
  simp [hasNonemptyText]
  omega

/-- Appending to a non-empty string keeps it non-empty. -/
lemma len_ne (s t : String) (hs : s.length ≠ 0) : (s ++ t).length ≠ 0 := by
  rw [String.length_append]; omega

/-- The match positions are a sublist of the index range of the lowercased
text. -/
lemma letterPositions_sublist (text : List Char) (letter : Char) :
    (letterPositions text letter).Sublist (List.range (jsToLower text).length) := by
  unfold letterPositions
  have h := (List.filter_sublist (l := (jsToLower text).enum)
      (p := fun p => [p.2] == jsLowerChar letter)).map Prod.fst
  rwa [List.enum_map_fst] at h

/-- A `flatMap` whose pieces are all singletons preserves the length. -/
lemma flatMap_length_singletons {α β : Type} (l : List α) (f : α → List β)
    (h : ∀ a ∈ l, (f a).length = 1) : (l.flatMap f).length = l.length := by
  induction l with
  | nil => rfl
  | cons x xs ih =>
    rw [List.flatMap_cons, List.length_append, h x (List.mem_cons_self x xs),
      List.length_cons, ih (fun a ha => h a (List.mem_cons_of_mem x ha))]
    omega

/-- A `flatMap` whose pieces are all singletons is a `map`. -/
lemma flatMap_eq_map_singletons {α β : Type} (l : List α) (f : α → List β)
    (g : α → β) (h : ∀ a ∈ l, f a = [g a]) : l.flatMap f = l.map g := by
  induction l with
  | nil => rfl
  | cons x xs ih =>
    rw [List.flatMap_cons, h x (List.mem_cons_self x xs), List.map_cons,
      List.singleton_append,
      ih (fun a ha => h a (List.mem_cons_of_mem x ha))]

/-- Closed form of the 6.5% / 30-year monthly payment before rounding. -/
lemma mortgagePayment65_closed : mortgageMonthlyPayment 300000 (13/2) 30 =
    300000 * (13/2400) * ((2413:ℚ)/2400)^360 / (((2413:ℚ)/2400)^360 - 1) := by
  simp only [mortgageMonthlyPayment]
  rw [if_neg (by norm_num)]
  norm_num

/-- The 6.5% / 30-year structured payload echoes the monthly rate rounded to
4 decimal places: 0.0054. -/
lemma mortgageRate65 :
    (calculateMortgage 300000 (13/2) 30).monthlyInterestRate = 27/5000 := by
  show round4 ((13:ℚ)/2/100/12) = 27/5000
  rw [round4, jsRound]
  rw [show ((13:ℚ)/2/100/12 * 10000 + 1/2) = 164/3 from by norm_num]
  rw [show ⌊(164:ℚ)/3⌋ = 54 from by rw [Int.floor_eq_iff]; constructor <;> norm_num]
  norm_num

/-- The 6.5% / 30-year monthly payment rounds to 1896.20. -/
lemma mortgagePayment65 :
    (calculateMortgage 300000 (13/2) 30).monthlyPayment = 9481/5 := by
  show round2 (mortgageMonthlyPayment 300000 (13/2) 30) = 9481/5
  rw [mortgagePayment65_closed, round2, jsRound]
  rw [show ⌊300000 * (13 / 2400) * ((2413:ℚ) / 2400) ^ 360 /
      (((2413:ℚ) / 2400) ^ 360 - 1) * 100 + 1 / 2⌋ = (189620 : ℤ) from by
    rw [Int.floor_eq_iff]; constructor <;> norm_num]
  norm_num

/-- The 6.5% / 30-year total amount paid rounds to 682633.47. -/
lemma mortgageTotal65 :
    (calculateMortgage 300000 (13/2) 30).totalAmountPaid = 68263347/100 := by
  show round2 (mortgageMonthlyPayment 300000 (13/2) 30 * ((30 * 12 : ℕ) : ℚ)) =
    68263347/100
  rw [mortgagePayment65_closed, round2, jsRound]
  rw [show ⌊300000 * (13 / 2400) * ((2413:ℚ) / 2400) ^ 360 /
      (((2413:ℚ) / 2400) ^ 360 - 1) * ((30 * 12 : ℕ) : ℚ) * 100 + 1 / 2⌋ =
      (68263347 : ℤ) from by
    rw [Int.floor_eq_iff]; constructor <;> (push_cast; norm_num)]
  norm_num

/-- The 6.5% / 30-year total interest rounds to 382633.47. -/
lemma mortgageInterest65 :
    (calculateMortgage 300000 (13/2) 30).totalInterest = 38263347/100 := by
  show round2 (mortgageMonthlyPayment 300000 (13/2) 30 * ((30 * 12 : ℕ) : ℚ)
    - 300000) = 38263347/100
  rw [mortgagePayment65_closed, round2, jsRound]
  rw [show ⌊(300000 * (13 / 2400) * ((2413:ℚ) / 2400) ^ 360 /
      (((2413:ℚ) / 2400) ^ 360 - 1) * ((30 * 12 : ℕ) : ℚ) - 300000) * 100 + 1 / 2⌋ =
      (38263347 : ℤ) from by
    rw [Int.floor_eq_iff]; constructor <;> (push_cast; norm_num)]
  norm_num

/-! ## Claim theorems -/

/-- C1: a handler that throws during execution yields a successful JSON-RPC
envelope whose result carries `success=false` and a non-empty descriptive
text block — both through the spec-modelled Dispatch Engine catch and
through the per-tool catch blocks of `src/unnamed/part_004` — never a
protocol-level error object. -/
theorem handler_failure_isolation (schema : ArgumentSchema)
    (hd : List (String × Json) → Except String ToolResult)
    (args : List (String × Json)) (e : String)
    (hval : validate schema args = [])
    (hthrow : hd args = .error e) :
    dispatchToolCall schema hd args = .result (handlerFailureResult e) ∧
    (dispatchToolCall schema hd args).isResult = true ∧
    (handlerFailureResult e).successBool = some false ∧
    hasNonemptyText (handlerFailureResult e) = true ∧
    (mortgageCatchResult e).successBool = some false ∧
    hasNonemptyText (mortgageCatchResult e) = true ∧
    (countLetterCatchResult e).successBool = some false ∧
    hasNonemptyText (countLetterCatchResult e) = true ∧
    ∀ country, (populationCatchResult country e).successBool = some false ∧
      hasNonemptyText (populationCatchResult country e) = true := by
  have hdis : dispatchToolCall schema hd args = .result (handlerFailureResult e) := by
    unfold dispatchToolCall
    rw [hval, hthrow]
  refine ⟨hdis, by rw [hdis]; rfl, rfl,
    hasNonemptyText_single _ _ (len_ne _ _ (by decide)), rfl, ?_, rfl, ?_, ?_⟩
  · apply hasNonemptyText_single
    repeat
      first
        | exact (by decide)
        | apply len_ne
  · apply hasNonemptyText_single
    repeat
      first
        | exact (by decide)
        | apply len_ne
  · intro country
    refine ⟨rfl, ?_⟩
    apply hasNonemptyText_single
    repeat
      first
        | exact (by decide)
        | apply len_ne

/-- C1 witness: a concrete throwing handler dispatched with an empty schema. -/
theorem handler_failure_isolation_witness :
    dispatchToolCall [] (fun _ => Except.error "downstream lookup failed") [] =
      CallResponse.result (handlerFailureResult "downstream lookup failed") ∧
    (handlerFailureResult "downstream lookup failed").successBool = some false ∧
    hasNonemptyText (handlerFailureResult "downstream lookup failed") = true := by
  have h := handler_failure_isolation []
      (fun _ => Except.error "downstream lookup failed") []
      "downstream lookup failed" rfl rfl
  exact ⟨h.1, h.2.2.1, h.2.2.2.1⟩

/-- C2 counterexample: the echo handler's result object has no structured
fields at all, so the claimed `success` flag is absent from the normalized
result of the concrete call made by the repository's own test script. -/
theorem echo_result_has_no_success_flag :
    (echoHandler "Hello from test script!").successField = none ∧
    (echoHandler "Hello from test script!").fields = [] := ⟨rfl, rfl⟩

/-- C2 amended: a handler result without structured payload fields (echo)
dispatches to a content-only successful envelope — normalization is total
and never throws — but the `success` flag is absent, not present. -/
theorem echo_normalization_content_only (m : String) :
    dispatchToolCall echoSchema (fun _ => Except.ok (echoHandler m))
        [("message", Json.str m)] = CallResponse.result (echoHandler m) ∧
    (echoHandler m).fields = [] ∧
    (echoHandler m).successField = none ∧
    (echoHandler m).content = [⟨"Tool echo: " ++ m⟩] :=
  ⟨rfl, rfl, rfl, rfl⟩

/-- C3 counterexample: the `route.ts` capability map declares
`count_character`, a tool that is never registered. -/
theorem capability_count_character_not_registered :
    (routeCapabilityTools.map Prod.fst).contains "count_character" = true ∧
    (routeRegisteredTools.map Prod.fst).contains "count_character" = false := by
  decide

/-- C3 amended: every registered tool appears among the declared
capabilities in both files, and in `part_004` the two name sets are exactly
equal; `route.ts` additionally declares the unregistered `count_character`. -/
theorem capability_registry_containment :
    ((part004CapabilityTools.map Prod.fst).all
      (fun n => (part004RegisteredTools.map Prod.fst).contains n)) = true ∧
    ((part004RegisteredTools.map Prod.fst).all
      (fun n => (part004CapabilityTools.map Prod.fst).contains n)) = true ∧
    ((routeRegisteredTools.map Prod.fst).all
      (fun n => (routeCapabilityTools.map Prod.fst).contains n)) = true := by
  decide

/-- C4: every return branch of every handler in the sources — success,
not-found, empty-data and catch branches alike — carries a content array
with at least one non-empty text block. -/
theorem every_result_has_nonempty_text :
    (∀ m, hasNonemptyText (echoHandler m) = true) ∧
    (∀ i, hasNonemptyText (sha1Result i) = true) ∧
    (∀ i, hasNonemptyText (sha256Result i) = true) ∧
    (∀ country oc, hasNonemptyText (populationHandler country oc) = true) ∧
    (∀ P r y, hasNonemptyText (mortgageSuccessResult P r y) = true) ∧
    (∀ e, hasNonemptyText (mortgageCatchResult e) = true) ∧
    (∀ t c, hasNonemptyText (countLetterSuccessResult t c) = true) ∧
    (∀ e, hasNonemptyText (countLetterCatchResult e) = true) ∧
    (∀ c e, hasNonemptyText (populationCatchResult c e) = true) := by
  refine ⟨fun m => ?_, fun i => ?_, fun i => ?_, fun country oc => ?_,
    fun P r y => ?_, fun e => ?_, fun t c => ?_, fun e => ?_, fun c e => ?_⟩
  case _ => exact hasNonemptyText_single _ _ (len_ne _ _ (by decide))
  case _ =>
    apply hasNonemptyText_single
    repeat
      first
        | exact (by decide)
        | apply len_ne
  case _ =>
    apply hasNonemptyText_single
    repeat
      first
        | exact (by decide)
        | apply len_ne
  case _ =>
    cases oc <;>
      · apply hasNonemptyText_single
        repeat
          first
            | exact (by decide)
            | apply len_ne
  case _ =>
    apply hasNonemptyText_single
    repeat
      first
        | exact (by decide)
        | apply len_ne
  case _ =>
    apply hasNonemptyText_single
    repeat
      first
        | exact (by decide)
        | apply len_ne
  case _ =>
    apply hasNonemptyText_single
    repeat
      first
        | exact (by decide)
        | apply len_ne
  case _ =>
    apply hasNonemptyText_single
    repeat
      first
        | exact (by decide)
        | apply len_ne
  case _ =>
    apply hasNonemptyText_single
    repeat
      first
        | exact (by decide)
        | apply len_ne

/-- C5: with a zero annual rate the handler takes the explicit zero-rate
branch, `M = P / (12 · years)`; at 120000 over 10 years the payment is
exactly 1000, raw and in the rounded structured payload. -/
theorem mortgage_zero_rate_branch (P : ℚ) (y : ℕ) (hP : 0 < P) (hy : 0 < y) :
    mortgageMonthlyPayment P 0 y = P / (12 * (y : ℚ)) ∧
    mortgageMonthlyPayment 120000 0 10 = 1000 ∧
    (calculateMortgage 120000 0 10).monthlyPayment = 1000 := by
  refine ⟨?_, ?_, ?_⟩
  · simp only [mortgageMonthlyPayment]
    rw [if_pos (by norm_num)]
    push_cast
    ring_nf
  · simp only [mortgageMonthlyPayment]
    rw [if_pos (by norm_num)]
    norm_num
  · show round2 (mortgageMonthlyPayment 120000 0 10) = 1000
    rw [show mortgageMonthlyPayment 120000 0 10 = 1000 from by
      simp only [mortgageMonthlyPayment]; rw [if_pos (by norm_num)]; norm_num]
    rw [round2, jsRound]
    norm_num

/-- C5 witness: the zero-rate theorem at loan 120000 over 10 years. -/
theorem mortgage_zero_rate_branch_witness :
    (0:ℚ) < 120000 ∧ 0 < 10 ∧ mortgageMonthlyPayment 120000 0 10 = 1000 :=
  ⟨by decide, by decide,
    (mortgage_zero_rate_branch 120000 10 (by decide) (by decide)).2.1⟩

/-- C6 counterexample: the structured payload echoes the monthly rate
rounded to 4 decimal places, 0.0054, not the claimed 0.0054166… (which is
13/2400, the exact monthly rate 6.5/100/12). -/
theorem mortgage_rate_echo_counterexample :
    (calculateMortgage 300000 (13/2) 30).monthlyInterestRate ≠ 13/2400 ∧
    (13:ℚ)/2/100/12 = 13/2400 := by
  constructor
  · rw [mortgageRate65]
    norm_num
  · norm_num

/-- C6 amended: for loan 300000 at 6.5% over 30 years the structured
calculation reports 360 payments, the monthly rate rounded to 4 decimals
(0.0054), a monthly payment of exactly 1896.20 after 2-decimal rounding,
and the 2-decimal-rounded totals. -/
theorem mortgage_standard_case :
    (calculateMortgage 300000 (13/2) 30).numberOfPayments = 360 ∧
    (calculateMortgage 300000 (13/2) 30).monthlyInterestRate = 27/5000 ∧
    (calculateMortgage 300000 (13/2) 30).monthlyPayment = 9481/5 ∧
    (calculateMortgage 300000 (13/2) 30).totalAmountPaid = 68263347/100 ∧
    (calculateMortgage 300000 (13/2) 30).totalInterest = 38263347/100 :=
  ⟨rfl, mortgageRate65, mortgagePayment65, mortgageTotal65, mortgageInterest65⟩

set_option maxRecDepth 40000 in
/-- C7: the hash tools are deterministic pure functions of the input string,
and on "hello world" produce exactly the expected lowercase hex SHA-256 and
SHA-1 digests of the UTF-8 bytes. -/
theorem hash_digests_deterministic :
    sha256Hex "hello world" =
      "b94d27b9934d3e08a52e52d7da7dabfac484efe37a5380ee9088f7ace2efcde9" ∧
    sha1Hex "hello world" = "2aae6c35c94fcfb415dbe95f408b9ce91ee846ed" ∧
    ∀ s : String, sha256Hex s = sha256Hex s ∧ sha1Hex s = sha1Hex s :=
  ⟨by decide, by decide, fun s => ⟨rfl, rfl⟩⟩

/-- C8: on text "Hello World" and letter "l" the analysis reports
totalCount 3, zero-indexed case-insensitive positions [2, 3, 9], and the
uppercase-highlighted visualization "HeLLo WorLd". -/
theorem letter_count_hello_world :
    countLetterOccurrences "Hello World".data 'l' =
      { originalText := "Hello World".data, targetLetter := 'l',
        totalCount := 3, positions := [2, 3, 9], textLength := 11,
        visualRepresentation := "HeLLo WorLd".data } := by
  decide

/-- C9: a required field missing from the arguments yields a violation
naming it, a wrong-kind value yields a type violation naming it, and on any
validation failure the dispatch answers `InvalidArguments` with the full
violation list, uniformly in the handler — the handler is never invoked. -/
theorem validation_blocks_handler (schema : ArgumentSchema) (f : String)
    (spc : FieldSpec) (args : List (String × Json))
    (hmem : (f, spc) ∈ schema) (hreq : spc.required = true) :
    (args.find? (fun p => p.1 == f) = none →
      Violation.missingArgument f ∈ validate schema args) ∧
    (∀ g v, args.find? (fun p => p.1 == f) = some (g, v) →
      v.matchesKind spc.kind = false →
      Violation.invalidArgumentType f spc.kind v ∈ validate schema args) ∧
    (validate schema args ≠ [] →
      ∀ hd, dispatchToolCall schema hd args =
        CallResponse.invalidArguments (validate schema args)) := by
  refine ⟨?_, ?_, ?_⟩
  · intro hfind
    rw [validate, List.mem_flatMap]
    refine ⟨(f, spc), hmem, ?_⟩
    rw [validateField]
    simp only [hfind, hreq, if_true]
    exact List.mem_singleton.mpr rfl
  · intro g v hfind hkind
    rw [validate, List.mem_flatMap]
    refine ⟨(f, spc), hmem, ?_⟩
    rw [validateField]
    simp only [hfind]
    rw [if_neg (by rw [hkind]; exact Bool.false_ne_true)]
    exact List.mem_singleton.mpr rfl
  · intro hne hd
    unfold dispatchToolCall
    cases hv : validate schema args with
    | nil => exact absurd hv hne
    | cons v vs => rfl

/-- C9 witness: the mortgage schema with `loanAmount` absent, then with a
string supplied for it; dispatch answers `InvalidArguments` either way. -/
theorem validation_blocks_handler_witness :
    Violation.missingArgument "loanAmount" ∈ validate mortgageSchema [] ∧
    Violation.invalidArgumentType "loanAmount" FieldKind.number (Json.str "x") ∈
      validate mortgageSchema [("loanAmount", Json.str "x")] ∧
    dispatchToolCall mortgageSchema (fun _ => Except.ok (echoHandler "m")) [] =
      CallResponse.invalidArguments (validate mortgageSchema []) := by
  have h1 := validation_blocks_handler mortgageSchema "loanAmount"
      { kind := .number, constraints := { positive := true } } []
      (List.Mem.head _) rfl
  have h2 := validation_blocks_handler mortgageSchema "loanAmount"
      { kind := .number, constraints := { positive := true } }
      [("loanAmount", Json.str "x")] (List.Mem.head _) rfl
  have hmiss := h1.1 rfl
  have hne : validate mortgageSchema [] ≠ [] := by
    intro hcon
    rw [hcon] at hmiss
    exact List.not_mem_nil _ hmiss
  exact ⟨hmiss, h2.2.1 "loanAmount" (Json.str "x") rfl rfl, h1.2.2 hne _⟩

/-- C10 counterexample: with the external ECMAScript length-changing case
mappings the program violates the claimed invariants — on text ß and
letter ß the visualization is SS, of length 2, not the text's length 1;
on text İ and letter U+0307 (combining dot above) the positions list is
[1] although the text length is 1. -/
theorem letter_count_invariants_counterexample :
    (countLetterOccurrences ['ß'] 'ß').visualRepresentation.length ≠
      (['ß'] : List Char).length ∧
    (countLetterOccurrences ['ß'] 'ß').visualRepresentation.length = 2 ∧
    (countLetterOccurrences ['ß'] 'ß').positions = [0] ∧
    (countLetterOccurrences ['İ'] (Char.ofNat 775)).positions = [1] ∧
    (countLetterOccurrences ['İ'] (Char.ofNat 775)).textLength = 1 := by
  decide

/-- C10 amended: totalCount is the number of positions; positions are
strictly increasing with every element inside the index range of the
lowercased text (which can exceed the original text's length); when every
matched position's character uppercases to a single character the
visualization has the text's length; and when every text character
uppercases to a single character (as on ASCII) the visualization agrees
with the text except that characters at matched positions are uppercased. -/
theorem letter_count_invariants (text : List Char) (letter : Char) :
    (countLetterOccurrences text letter).totalCount =
      (countLetterOccurrences text letter).positions.length ∧
    (countLetterOccurrences text letter).positions.Pairwise (· < ·) ∧
    (∀ i ∈ (countLetterOccurrences text letter).positions,
      i < (jsToLower text).length) ∧
    ((∀ i ∈ (countLetterOccurrences text letter).positions,
        (jsUpperChar (text.getD i ' ')).length = 1) →
      (countLetterOccurrences text letter).visualRepresentation.length =
        text.length) ∧
    ((∀ c ∈ text, jsUpperChar c = [c.toUpper]) →
      ∀ (i : ℕ), i < text.length →
        (countLetterOccurrences text letter).visualRepresentation.getD i ' ' =
          if i ∈ (countLetterOccurrences text letter).positions
          then (text.getD i ' ').toUpper else text.getD i ' ') := by
  refine ⟨rfl,
    (List.pairwise_lt_range (jsToLower text).length).sublist
      (letterPositions_sublist text letter),
    fun i hi => List.mem_range.mp ((letterPositions_sublist text letter).subset hi),
    ?_, ?_⟩
  · intro H
    show (visualRepresentation text letter).length = text.length
    unfold visualRepresentation
    rw [flatMap_length_singletons _ _ ?_, List.enum_length]
    intro p hp
    by_cases hc : (letterPositions text letter).contains p.1 = true
    · rw [if_pos hc]
      have hmem : p.1 ∈ letterPositions text letter := by
        rw [show (letterPositions text letter).contains p.1 =
            (letterPositions text letter).elem p.1 from rfl, List.elem_iff] at hc
        exact hc
      have hH := H p.1 hmem
      obtain ⟨hlt, heq⟩ :=
        List.getElem?_eq_some.mp (List.mem_enum_iff_getElem?.mp hp)
      rwa [List.getD_eq_getElem _ _ hlt, heq] at hH
    · rw [if_neg hc]
      rfl
  · intro Hup i h
    show (visualRepresentation text letter).getD i ' ' =
      if i ∈ letterPositions text letter
      then (text.getD i ' ').toUpper else text.getD i ' '
    have hC : visualRepresentation text letter =
        text.enum.map (fun p =>
          if (letterPositions text letter).contains p.1 then p.2.toUpper
          else p.2) := by
      unfold visualRepresentation
      apply flatMap_eq_map_singletons
      intro p hp
      obtain ⟨hlt, heq⟩ :=
        List.getElem?_eq_some.mp (List.mem_enum_iff_getElem?.mp hp)
      have hpmem : p.2 ∈ text := heq ▸ List.getElem_mem hlt
      by_cases hcon : (letterPositions text letter).contains p.1 = true
      · rw [if_pos hcon, if_pos hcon]
        exact Hup p.2 hpmem
      · rw [if_neg hcon, if_neg hcon]
    have hv : i < (visualRepresentation text letter).length := by
      rw [hC, List.length_map, List.enum_length]; exact h
    rw [List.getD_eq_getElem _ _ hv, List.getD_eq_getElem _ _ h]
    simp only [hC]
    rw [List.getElem_map, List.getElem_enum]
    by_cases hm : i ∈ letterPositions text letter
    · rw [if_pos hm]
      have hc : (letterPositions text letter).contains i = true := by
        rw [show (letterPositions text letter).contains i =
            (letterPositions text letter).elem i from rfl, List.elem_iff]
        exact hm
      simp [hc]
      exact fun hn => absurd hm hn
    · rw [if_neg hm]
      have hc : (letterPositions text letter).contains i = false := by
        rw [show (letterPositions text letter).contains i =
            (letterPositions text letter).elem i from rfl]
        rw [Bool.eq_false_iff]
        intro hcon
        exact hm (List.elem_iff.mp hcon)
      simp [hc]
      exact fun hcon => absurd hcon hm

/-- C10 witness: the amended invariants applied to "Hello World" / letter l,
whose characters all have single-character case mappings, at matched
index 9. -/
theorem letter_count_invariants_witness :
    (countLetterOccurrences "Hello World".data 'l').visualRepresentation.length =
      "Hello World".data.length ∧
    (countLetterOccurrences "Hello World".data 'l').visualRepresentation.getD
      9 ' ' = 'L' := by
  have h := letter_count_invariants "Hello World".data 'l'
  refine ⟨h.2.2.2.1 (by decide), ?_⟩
  rw [h.2.2.2.2 (by decide) 9 (by decide)]
  decide

end MCP
